import Mathlib

/-!
Verification of the quick-action resolution logic of
`src/compositional-patterns-reference.jsx`.

The core is the `CurrentQuickActionsMenu` component (source lines 366-411):
it reads an optional configuration (`useConfig`), a feature-flag map
(`useFeatureFlags`), the item under action, and an optional caller-supplied
specialized editor renderer (`editHoverButton` prop, default `null`), and its
inner `getActionButtons` closure builds the ordered list of action buttons.
We embed that closure as a pure function of the four values it closes over.
The factory variant `createQuickActionsComponent` (source lines 260-272) is
embedded as well for the comparison of the two save decisions.

The hover branch of the source (line 394) passes `asset={transformedAsset}`,
an identifier defined nowhere in the file; the embedding records that payload
as `Payload.unboundRef "transformedAsset"`, distinct from every item payload.
-/

/-- Template type identifiers: the two project-file constants imported by the
source plus everything else (`OTHER n` ranges over all remaining ids,
including unrecognized ones). -/
inductive TemplateTypeId where
  | TEMPLATE_TYPE_AE_PROJ : TemplateTypeId
  | TEMPLATE_TYPE_PPRO_PROJ : TemplateTypeId
  | OTHER : Nat → TemplateTypeId
deriving DecidableEq

/-- The content item being acted on; the resolver reads only
`templateTypeId` (source line 379). -/
structure Item where
  templateTypeId : TemplateTypeId
deriving DecidableEq

/-- The configuration record; the field is optional because the source reads
it as `config?.disableLibraryFeatures ?? false` (line 368). -/
structure Configuration where
  disableLibraryFeatures : Option Bool
deriving DecidableEq

/-- A resolved feature-flag record `{ value }`; `value` is optional because
the source destructures it with a default (`value: x = false`). -/
structure FlagValue where
  value : Option Bool
deriving DecidableEq

/-- The feature-flag map returned by `useFeatureFlags()`: flag id to optional
flag record (absent keys are `none`). -/
def FeatureFlagSet : Type := String → Option FlagValue

/-- A feature-flag handle as imported from the flags package: carries its
stable string id. -/
structure FeatureFlag where
  id : String

/-- Flag handle for `edit-hover-button-in-timeline` (id per spec section 6). -/
def isEditHoverButtonInTimelineEnabledFF : FeatureFlag :=
  { id := "edit-hover-button-in-timeline" }

/-- Flag handle for `timeline-single-asset-editor` (id per spec section 6). -/
def isTimelineSingleAssetEditorEnabledFF : FeatureFlag :=
  { id := "timeline-single-asset-editor" }

/-- The source's destructuring
`{ [ff.id]: { value: v = false } = {} } = useFeatureFlags()`
(lines 370-377): an absent key or an absent `value` field yields `false`. -/
def getFlagValue (flags : FeatureFlagSet) (ff : FeatureFlag) : Bool :=
  (((flags ff.id).getD { value := none }).value).getD false

/-- `config?.disableLibraryFeatures ?? false` (source line 368). -/
def disableLibraryFeaturesOf (config : Option Configuration) : Bool :=
  (config.bind Configuration.disableLibraryFeatures).getD false

/-- The kinds of quick-action buttons the source can push. -/
inductive ActionKind where
  | SAVE_TO_LIBRARY : ActionKind
  | EDIT : ActionKind
  | EDIT_HOVER_TIMELINE : ActionKind
deriving DecidableEq

/-- What a pushed button element carries: either the `item` prop (the save
and single-asset-edit branches) or a reference to an identifier that is bound
nowhere in the source file (the hover branch's `transformedAsset`). -/
inductive Payload where
  | item : Item → Payload
  | unboundRef : String → Payload
deriving DecidableEq

/-- A pushed button element, abstracted to its kind, its `key` prop, and the
data it is given. -/
structure ActionDescriptor where
  kind : ActionKind
  key : String
  payload : Payload
deriving DecidableEq

/-- `<SaveToLibraryButton key="save-to-library" item={item} />` (line 387). -/
def saveToLibraryDescriptor (item : Item) : ActionDescriptor :=
  { kind := ActionKind.SAVE_TO_LIBRARY
    key := "save-to-library"
    payload := Payload.item item }

/-- `<SingleAssetEditHoverButton key="single-asset-edit" item={item} />`
(line 391): the caller-supplied specialized editor. -/
def singleAssetEditDescriptor (item : Item) : ActionDescriptor :=
  { kind := ActionKind.EDIT
    key := "single-asset-edit"
    payload := Payload.item item }

/-- `<EditHoverButton key="edit-hover" asset={transformedAsset} />`
(line 394): `transformedAsset` is defined nowhere in the file, so the payload
is an unbound reference, not the input item. -/
def editHoverDescriptor : ActionDescriptor :=
  { kind := ActionKind.EDIT_HOVER_TIMELINE
    key := "edit-hover"
    payload := Payload.unboundRef "transformedAsset" }

/-- `showSaveToLibraryButton` (source lines 380-381):
`!disableLibraryFeatures && ![AE, PPRO].includes(templateTypeId)`. -/
def showSaveToLibraryButton (config : Option Configuration) (item : Item) : Bool :=
  !(disableLibraryFeaturesOf config)
    && !([TemplateTypeId.TEMPLATE_TYPE_AE_PROJ,
          TemplateTypeId.TEMPLATE_TYPE_PPRO_PROJ].contains item.templateTypeId)

/-- The `getActionButtons` closure of `CurrentQuickActionsMenu`
(source lines 383-398), as a function of the values it closes over:
the configuration, the flag map, the item, and whether the caller supplied
the `editHoverButton` prop (`SingleAssetEditHoverButton`, default `null`). -/
def getActionButtons (config : Option Configuration) (flags : FeatureFlagSet)
    (item : Item) (SingleAssetEditHoverButton : Bool) : List ActionDescriptor :=
  let isEditHoverButtonInTimelineEnabled :=
    getFlagValue flags isEditHoverButtonInTimelineEnabledFF
  let isTimelineSingleAssetEditorEnabled :=
    getFlagValue flags isTimelineSingleAssetEditorEnabledFF
  let buttons : List ActionDescriptor :=
    if showSaveToLibraryButton config item then [saveToLibraryDescriptor item] else []
  if isTimelineSingleAssetEditorEnabled && SingleAssetEditHoverButton then
    buttons ++ [singleAssetEditDescriptor item]
  else if !isTimelineSingleAssetEditorEnabled && isEditHoverButtonInTimelineEnabled then
    buttons ++ [editHoverDescriptor]
  else
    buttons

/-- The component body around the closure (source lines 400-411): when the
button list is empty it returns `null`, otherwise the wrapped list. -/
def CurrentQuickActionsMenu (config : Option Configuration) (flags : FeatureFlagSet)
    (item : Item) (editHoverButton : Bool) : Option (List ActionDescriptor) :=
  let actionButtons := getActionButtons config flags item editHoverButton
  if actionButtons.length = 0 then none else some actionButtons

/-- The `showSave` computation of the factory-produced component
(source lines 261-264): `const { disableLibraryFeatures = false } = config`
followed by the same project-type exclusion. -/
def QuickActionsComponent_showSave (config : Configuration) (item : Item) : Bool :=
  !(config.disableLibraryFeatures.getD false)
    && !([TemplateTypeId.TEMPLATE_TYPE_AE_PROJ,
          TemplateTypeId.TEMPLATE_TYPE_PPRO_PROJ].contains item.templateTypeId)

/-- What the factory-produced component renders (source lines 266-271):
the save button when `showSave`, then the edit button unconditionally,
abstracted to the list of kinds. -/
def createQuickActionsComponent (config : Configuration) (item : Item) : List ActionKind :=
  (if QuickActionsComponent_showSave config item
    then [ActionKind.SAVE_TO_LIBRARY] else [])
    ++ [ActionKind.EDIT]

/-- A completely empty flag map. -/
def emptyFlags : FeatureFlagSet := fun _ => none

/-- A flag map with every flag resolved to `true`. -/
def allTrueFlags : FeatureFlagSet := fun _ => some { value := some true }

/-- A flag map with only `edit-hover-button-in-timeline` set, to `true`. -/
def hoverOnlyFlags : FeatureFlagSet := fun s =>
  if s = "edit-hover-button-in-timeline" then some { value := some true } else none

/-- A present configuration with `disableLibraryFeatures: false`. -/
def configAllow : Option Configuration := some { disableLibraryFeatures := some false }

/-- A present configuration with `disableLibraryFeatures: true`. -/
def configDisable : Option Configuration := some { disableLibraryFeatures := some true }

/-- An item whose template type is neither project-file constant. -/
def itemOther : Item := { templateTypeId := TemplateTypeId.OTHER 0 }

/-- An After Effects project item. -/
def itemAEProj : Item := { templateTypeId := TemplateTypeId.TEMPLATE_TYPE_AE_PROJ }

/-- Normal form of `getActionButtons`: the optional save descriptor followed
by the branch-selected edit descriptor. -/
theorem getActionButtons_eq (config : Option Configuration) (flags : FeatureFlagSet)
    (item : Item) (r : Bool) :
    getActionButtons config flags item r
      = (if showSaveToLibraryButton config item
          then [saveToLibraryDescriptor item] else [])
        ++ (if getFlagValue flags isTimelineSingleAssetEditorEnabledFF && r then
              [singleAssetEditDescriptor item]
            else if !(getFlagValue flags isTimelineSingleAssetEditorEnabledFF)
                && getFlagValue flags isEditHoverButtonInTimelineEnabledFF then
              [editHoverDescriptor]
            else []) := by
  cases hts : getFlagValue flags isTimelineSingleAssetEditorEnabledFF <;>
    cases heh : getFlagValue flags isEditHoverButtonInTimelineEnabledFF <;>
      cases r <;>
        simp [getActionButtons, hts, heh]

/-- The save descriptor is in the output exactly when `showSaveToLibraryButton`
holds. -/
theorem mem_save_iff (config : Option Configuration) (flags : FeatureFlagSet)
    (item : Item) (r : Bool) :
    ActionKind.SAVE_TO_LIBRARY
        ∈ (getActionButtons config flags item r).map ActionDescriptor.kind
      ↔ showSaveToLibraryButton config item = true := by
  rw [getActionButtons_eq]
  cases hs : showSaveToLibraryButton config item <;>
    cases hts : getFlagValue flags isTimelineSingleAssetEditorEnabledFF <;>
      cases heh : getFlagValue flags isEditHoverButtonInTimelineEnabledFF <;>
        cases r <;>
          simp [saveToLibraryDescriptor, singleAssetEditDescriptor, editHoverDescriptor]

/-- `showSaveToLibraryButton` spelled out as a proposition. -/
theorem showSave_iff (config : Option Configuration) (item : Item) :
    showSaveToLibraryButton config item = true
      ↔ (disableLibraryFeaturesOf config = false
          ∧ item.templateTypeId ≠ TemplateTypeId.TEMPLATE_TYPE_AE_PROJ
          ∧ item.templateTypeId ≠ TemplateTypeId.TEMPLATE_TYPE_PPRO_PROJ) := by
  obtain ⟨t⟩ := item
  cases t <;>
    simp [showSaveToLibraryButton, Bool.and_eq_true, Bool.not_eq_true']

/-- C1: the resolver's output contains a SAVE_TO_LIBRARY descriptor if and
only if the resolved `disableLibraryFeatures` is false and the item's
`templateTypeId` is neither AE project nor Premiere project; in particular
never for a disabled configuration or a project-file item, regardless of the
flag map or renderer availability. -/
theorem c1_save_iff_eligible (config : Option Configuration) (flags : FeatureFlagSet)
    (item : Item) (r : Bool) :
    ActionKind.SAVE_TO_LIBRARY
        ∈ (getActionButtons config flags item r).map ActionDescriptor.kind
      ↔ (disableLibraryFeaturesOf config = false
          ∧ item.templateTypeId ≠ TemplateTypeId.TEMPLATE_TYPE_AE_PROJ
          ∧ item.templateTypeId ≠ TemplateTypeId.TEMPLATE_TYPE_PPRO_PROJ) :=
  Iff.trans (mem_save_iff config flags item r) (showSave_iff config item)

/-- C2: the output never contains both an EDIT descriptor and an
EDIT_HOVER_TIMELINE descriptor: their kind counts sum to at most one. -/
theorem c2_at_most_one_edit_kind (config : Option Configuration)
    (flags : FeatureFlagSet) (item : Item) (r : Bool) :
    ((getActionButtons config flags item r).map ActionDescriptor.kind).count
        ActionKind.EDIT
      + ((getActionButtons config flags item r).map ActionDescriptor.kind).count
        ActionKind.EDIT_HOVER_TIMELINE ≤ 1 := by
  rw [getActionButtons_eq]
  cases hs : showSaveToLibraryButton config item <;>
    cases hts : getFlagValue flags isTimelineSingleAssetEditorEnabledFF <;>
      cases heh : getFlagValue flags isEditHoverButtonInTimelineEnabledFF <;>
        cases r <;>
          simp [saveToLibraryDescriptor, singleAssetEditDescriptor, editHoverDescriptor]

/-- C3: when `timeline-single-asset-editor` is enabled and the caller
supplies the specialized editor renderer, the output is the optional save
descriptor followed by the EDIT (single-asset editor) descriptor, with no
EDIT_HOVER_TIMELINE even if the hover flag is also set; Scenario C (both
flags true, renderer available, eligible OTHER item) yields
[SAVE_TO_LIBRARY, EDIT]. -/
theorem c3_single_asset_editor_priority (config : Option Configuration)
    (flags : FeatureFlagSet) (item : Item)
    (hts : getFlagValue flags isTimelineSingleAssetEditorEnabledFF = true) :
    ((getActionButtons config flags item true).map ActionDescriptor.kind
        = (if showSaveToLibraryButton config item
            then [ActionKind.SAVE_TO_LIBRARY] else []) ++ [ActionKind.EDIT])
    ∧ (getActionButtons configAllow allTrueFlags itemOther true).map ActionDescriptor.kind
        = [ActionKind.SAVE_TO_LIBRARY, ActionKind.EDIT] := by
  constructor
  · rw [getActionButtons_eq]
    cases hs : showSaveToLibraryButton config item <;>
      simp [hts, saveToLibraryDescriptor, singleAssetEditDescriptor]
  · decide

/-- Scenario C instance of C3. -/
theorem c3_single_asset_editor_priority_witness :
    (getActionButtons configAllow allTrueFlags itemOther true).map ActionDescriptor.kind
      = [ActionKind.SAVE_TO_LIBRARY, ActionKind.EDIT] :=
  (c3_single_asset_editor_priority configAllow allTrueFlags itemOther (by decide)).2

/-- C4: when `timeline-single-asset-editor` is enabled but the specialized
editor renderer is unavailable (the prop is null), no edit-kind descriptor is
emitted at all, even if the hover flag is true; Scenario D yields
[SAVE_TO_LIBRARY] for an eligible item. -/
theorem c4_no_fallback_without_renderer (config : Option Configuration)
    (flags : FeatureFlagSet) (item : Item)
    (hts : getFlagValue flags isTimelineSingleAssetEditorEnabledFF = true) :
    ((getActionButtons config flags item false).map ActionDescriptor.kind
        = if showSaveToLibraryButton config item
            then [ActionKind.SAVE_TO_LIBRARY] else [])
    ∧ (getActionButtons configAllow allTrueFlags itemOther false).map ActionDescriptor.kind
        = [ActionKind.SAVE_TO_LIBRARY] := by
  constructor
  · rw [getActionButtons_eq]
    cases hs : showSaveToLibraryButton config item <;>
      simp [hts, saveToLibraryDescriptor]
  · decide

/-- Scenario D instance of C4. -/
theorem c4_no_fallback_without_renderer_witness :
    (getActionButtons configAllow allTrueFlags itemOther false).map ActionDescriptor.kind
      = [ActionKind.SAVE_TO_LIBRARY] :=
  (c4_no_fallback_without_renderer configAllow allTrueFlags itemOther (by decide)).2

/-- C5 counterexample: with both flags absent the code pushes no edit button
at all. Scenario A (eligible OTHER item, empty flags) yields only
[SAVE_TO_LIBRARY], not [SAVE_TO_LIBRARY, EDIT]; Scenario E (disabled config,
AE project item, empty flags) yields the empty list, not [EDIT]. -/
theorem c5_counterexample_no_baseline_edit :
    ((getActionButtons configAllow emptyFlags itemOther false).map ActionDescriptor.kind
        = [ActionKind.SAVE_TO_LIBRARY])
    ∧ ((getActionButtons configAllow emptyFlags itemOther false).map ActionDescriptor.kind
        = [ActionKind.SAVE_TO_LIBRARY, ActionKind.EDIT] → False)
    ∧ ((getActionButtons configDisable emptyFlags itemAEProj false).map ActionDescriptor.kind
        = [ActionKind.EDIT] → False) := by
  decide

/-- C5 amended: when neither flag resolves to true, the resolver appends no
edit descriptor: the result is exactly the optional save descriptor.
Scenario A yields [SAVE_TO_LIBRARY], Scenario E yields [] and the menu
renders nothing. -/
theorem c5_amended_no_flags_no_edit (config : Option Configuration)
    (flags : FeatureFlagSet) (item : Item) (r : Bool)
    (heh : getFlagValue flags isEditHoverButtonInTimelineEnabledFF = false)
    (hts : getFlagValue flags isTimelineSingleAssetEditorEnabledFF = false) :
    (getActionButtons config flags item r
        = if showSaveToLibraryButton config item
            then [saveToLibraryDescriptor item] else [])
    ∧ (getActionButtons configAllow emptyFlags itemOther false).map ActionDescriptor.kind
        = [ActionKind.SAVE_TO_LIBRARY]
    ∧ getActionButtons configDisable emptyFlags itemAEProj false = []
    ∧ CurrentQuickActionsMenu configDisable emptyFlags itemAEProj false = none := by
  refine ⟨?_, by decide, by decide, by decide⟩
  rw [getActionButtons_eq]
  cases hs : showSaveToLibraryButton config item <;> simp [hts, heh]

/-- Scenario E instance of the amended C5. -/
theorem c5_amended_no_flags_no_edit_witness :
    CurrentQuickActionsMenu configDisable emptyFlags itemAEProj false = none :=
  (c5_amended_no_flags_no_edit configDisable emptyFlags itemAEProj false
    (by decide) (by decide)).2.2.2

/-- C6: whenever SAVE_TO_LIBRARY is in the output it is the first element
(the save descriptor is pushed before any edit-kind descriptor), and
Scenario B (hover flag only, eligible OTHER item) yields
[SAVE_TO_LIBRARY, EDIT_HOVER_TIMELINE] in that order. -/
theorem c6_save_first_in_order (config : Option Configuration)
    (flags : FeatureFlagSet) (item : Item) (r : Bool)
    (h : ActionKind.SAVE_TO_LIBRARY
        ∈ (getActionButtons config flags item r).map ActionDescriptor.kind) :
    (getActionButtons config flags item r).head? = some (saveToLibraryDescriptor item)
    ∧ (getActionButtons configAllow hoverOnlyFlags itemOther false).map ActionDescriptor.kind
        = [ActionKind.SAVE_TO_LIBRARY, ActionKind.EDIT_HOVER_TIMELINE] := by
  have hs : showSaveToLibraryButton config item = true :=
    (mem_save_iff config flags item r).mp h
  refine ⟨?_, by decide⟩
  rw [getActionButtons_eq, hs]
  cases hts : getFlagValue flags isTimelineSingleAssetEditorEnabledFF <;>
    cases heh : getFlagValue flags isEditHoverButtonInTimelineEnabledFF <;>
      cases r <;> simp

/-- Scenario B instance of C6. -/
theorem c6_save_first_in_order_witness :
    (getActionButtons configAllow hoverOnlyFlags itemOther false).head?
      = some (saveToLibraryDescriptor itemOther) :=
  (c6_save_first_in_order configAllow hoverOnlyFlags itemOther false (by decide)).1

/-- C7: graceful degradation. A flag whose key is absent resolves to false;
with a completely empty flag map every flag resolves to false; an absent
configuration behaves exactly as `disableLibraryFeatures: false`; an
unrecognized `templateTypeId` is treated as not a project file, so the item
stays save-eligible whenever the configuration allows it. -/
theorem c7_defaults_never_fail :
    (∀ (flags : FeatureFlagSet) (ff : FeatureFlag),
        flags ff.id = none → getFlagValue flags ff = false)
    ∧ (∀ ff : FeatureFlag, getFlagValue emptyFlags ff = false)
    ∧ (∀ (flags : FeatureFlagSet) (item : Item) (r : Bool),
        getActionButtons none flags item r
          = getActionButtons (some { disableLibraryFeatures := some false }) flags item r)
    ∧ (∀ (config : Option Configuration) (n : Nat),
        showSaveToLibraryButton config { templateTypeId := TemplateTypeId.OTHER n }
          = !(disableLibraryFeaturesOf config)) := by
  refine ⟨?_, ?_, ?_, ?_⟩
  · intro flags ff h
    simp [getFlagValue, h]
  · intro ff
    rfl
  · intro flags item r
    rfl
  · intro config n
    have hc : ([TemplateTypeId.TEMPLATE_TYPE_AE_PROJ,
        TemplateTypeId.TEMPLATE_TYPE_PPRO_PROJ].contains (TemplateTypeId.OTHER n))
        = false := rfl
    simp [showSaveToLibraryButton, hc]

/-- C8: the resolver is deterministic: two calls whose configurations, flag
maps (pointwise), items and renderer availabilities coincide produce equal
output lists. -/
theorem c8_deterministic (configA configB : Option Configuration)
    (flagsA flagsB : FeatureFlagSet) (itemA itemB : Item) (rA rB : Bool)
    (hc : configA = configB) (hf : ∀ s, flagsA s = flagsB s)
    (hi : itemA = itemB) (hr : rA = rB) :
    getActionButtons configA flagsA itemA rA = getActionButtons configB flagsB itemB rB := by
  subst hc hi hr
  have hfe : flagsA = flagsB := funext hf
  rw [hfe]

/-- C8 at a concrete repeated call. -/
theorem c8_deterministic_witness :
    getActionButtons configAllow emptyFlags itemOther false
      = getActionButtons configAllow emptyFlags itemOther false :=
  c8_deterministic configAllow configAllow emptyFlags emptyFlags itemOther itemOther
    false false rfl (fun _ => rfl) rfl rfl

/-- C9: when the hover flag is true and the single-asset-editor flag is
false, the hover branch runs and its descriptor's payload is the unbound
identifier `transformedAsset`, never the input item: the appended descriptor
is `editHoverDescriptor`, whose payload differs from `Payload.item i` for
every item `i`. -/
theorem c9_hover_branch_unbound_reference (config : Option Configuration)
    (flags : FeatureFlagSet) (item : Item) (r : Bool)
    (heh : getFlagValue flags isEditHoverButtonInTimelineEnabledFF = true)
    (hts : getFlagValue flags isTimelineSingleAssetEditorEnabledFF = false) :
    (getActionButtons config flags item r).getLast? = some editHoverDescriptor
    ∧ editHoverDescriptor.payload = Payload.unboundRef "transformedAsset"
    ∧ ∀ i : Item, editHoverDescriptor.payload ≠ Payload.item i := by
  refine ⟨?_, rfl, by intro i; simp [editHoverDescriptor]⟩
  rw [getActionButtons_eq, heh, hts]
  cases hs : showSaveToLibraryButton config item <;> cases r <;> simp

/-- C9 at Scenario B's input. -/
theorem c9_hover_branch_unbound_reference_witness :
    (getActionButtons configAllow hoverOnlyFlags itemOther false).getLast?
      = some editHoverDescriptor :=
  (c9_hover_branch_unbound_reference configAllow hoverOnlyFlags itemOther false
    (by decide) (by decide)).1

/-- C10: the factory-produced component and CurrentQuickActionsMenu agree on
the save decision: for every present configuration, item, flag map and
renderer availability, SAVE_TO_LIBRARY is in the factory's output exactly
when it is in the menu's output, and both happen exactly when
`disableLibraryFeatures` (defaulting to false) is false and the template
type is neither project-file constant. -/
theorem c10_factory_menu_save_agree (config : Configuration) (item : Item)
    (flags : FeatureFlagSet) (r : Bool) :
    (ActionKind.SAVE_TO_LIBRARY ∈ createQuickActionsComponent config item
      ↔ ActionKind.SAVE_TO_LIBRARY
          ∈ (getActionButtons (some config) flags item r).map ActionDescriptor.kind)
    ∧ (ActionKind.SAVE_TO_LIBRARY ∈ createQuickActionsComponent config item
      ↔ (config.disableLibraryFeatures.getD false = false
          ∧ item.templateTypeId ≠ TemplateTypeId.TEMPLATE_TYPE_AE_PROJ
          ∧ item.templateTypeId ≠ TemplateTypeId.TEMPLATE_TYPE_PPRO_PROJ)) := by
  have hshow : QuickActionsComponent_showSave config item
      = showSaveToLibraryButton (some config) item := rfl
  have hmemf : ActionKind.SAVE_TO_LIBRARY ∈ createQuickActionsComponent config item
      ↔ showSaveToLibraryButton (some config) item = true := by
    rw [createQuickActionsComponent, hshow]
    cases hs : showSaveToLibraryButton (some config) item <;> simp
  have hd : disableLibraryFeaturesOf (some config)
      = config.disableLibraryFeatures.getD false := rfl
  constructor
  · exact hmemf.trans (mem_save_iff (some config) flags item r).symm
  · exact hmemf.trans ((showSave_iff (some config) item).trans (by rw [hd]))
